import Mathlib

/-!
Verification of the charm-go-weather terminal application (a bubbletea UI
around one weather-API call).  The Go source is shallowly embedded below:

* the `Weather` JSON schema and `Weather.Decode` (a model of
  `encoding/json.Unmarshal` restricted to this schema),
* the table projection `Model.InitTable` (including the `day.Time[:10]`
  slice, whose out-of-bounds panic is modelled by `Option.none`),
* the bubbletea `Model.Update` / `Model.View` functions,
* the `Model.LoadWeather` command split into its lock-protected prologue
  (`loadWeatherBegin`: duplicate-fetch guard plus setting `updating`) and
  its epilogue (`loadWeatherFinish`: fetch/decode outcome handling plus the
  deferred reset of `updating`),
* a small event system (`SysState`, `Step`) describing how the bubbletea
  runtime delivers messages, executes returned commands and runs the
  background fetch; the model's mutex — held by the closure for its whole
  duration, so duplicate fetch commands block and are queued — is
  represented by `pendingFetch`, and the dead duplicate-request guard is
  translated and proved unreachable (`guard_is_dead_code`).

Floating-point values (`float64`) are modelled as rationals; `fmt.Sprintf
"%.2f"` is modelled by `fmtF2` (round to the nearest hundredth; the
binary-float rounding details are immaterial to the stated properties,
which concern the digit shape of the output).  Go byte-indexing of date
strings is modelled at the character level (the provider's dates are
ASCII).  The external `spinner`, `textinput` and `table` widgets are
collaborators outside the repository: their `View` methods are modelled
abstractly (`spinnerView` field, the typed value, one line per row).
-/

/-- A JSON value, used to model the body handed to `json.Unmarshal`.
Numbers are modelled as rationals. -/
inductive Json where
  | null : Json
  | bool (b : Bool) : Json
  | num (q : ℚ) : Json
  | str (s : String) : Json
  | arr (elems : List Json) : Json
  | obj (fields : List (String × Json)) : Json
deriving Repr

/-- A response body as seen by `json.Unmarshal`: either bytes that are not
syntactically valid JSON, or a parsed JSON value. -/
inductive JsonDoc where
  | malformed (e : String) : JsonDoc
  | value (j : Json) : JsonDoc
deriving Repr

/-- `Values` in the `Weather` struct: `{temperatureAvg, humidityAvg float64}`. -/
structure DailyValues where
  temperatureAvg : ℚ
  humidityAvg : ℚ
deriving Repr, DecidableEq

/-- One element of `Timelines.Daily`: `{Time string; Values ...}`. -/
structure Daily where
  time : String
  values : DailyValues
deriving Repr, DecidableEq

/-- `Timelines` in the `Weather` struct: `{Daily []...}`. -/
structure Timelines where
  daily : List Daily
deriving Repr, DecidableEq

/-- The decoded forecast, Go's `Weather` struct. -/
structure Weather where
  timelines : Timelines
deriving Repr, DecidableEq

/-- The zero value `Weather{}`. -/
def emptyWeather : Weather := ⟨⟨[]⟩⟩

/-- `WeatherMsg{w Weather; err error}`; errors are modelled by their text. -/
structure WeatherMsg where
  w : Weather
  err : Option String
deriving Repr, DecidableEq

/-! ### Model of `encoding/json.Unmarshal` for the `Weather` schema

`json.Unmarshal(data, &w)` on this schema: a JSON `null` leaves the target
untouched and reports no error; a JSON object decodes the known keys
(`timelines`, `daily`, `time`, `values`, `temperatureAvg`, `humidityAvg`)
field by field in order, silently ignoring unknown keys; any other JSON
kind in a struct/slice/string/number position is a type error.  Object
keys are matched to field tags case-insensitively (an exact match is
preferred, but each struct here has at most one field folding to a given
key, so the preference never matters): `{"TIMELINES": ...}` or
`{"Timelines": ...}` binds the `timelines` field just like the exact tag.
(`Unmarshal`'s keep-going-after-first-type-error behaviour is not
modelled; it does not change which inputs succeed, nor the value produced
on success, since a failed `Unmarshal`'s partial writes are discarded by
the caller.) -/

/-- A character's code point with ASCII uppercase folded to lowercase. -/
def foldCode (c : Char) : ℕ :=
  if 65 ≤ c.toNat ∧ c.toNat ≤ 90 then c.toNat + 32 else c.toNat

/-- `strings.EqualFold` as used by `encoding/json` for field-name
matching, restricted to the ASCII keys of this schema: the strings are
compared code point by code point with ASCII uppercase folded to
lowercase. -/
def eqFold (a b : String) : Bool := a.data.map foldCode == b.data.map foldCode

def decodeValuesFields (acc : DailyValues) :
    List (String × Json) → Except String DailyValues
  | [] => .ok acc
  | (k, v) :: rest =>
    if eqFold k "temperatureAvg" then
      match v with
      | .null => decodeValuesFields acc rest
      | .num q => decodeValuesFields { acc with temperatureAvg := q } rest
      | _ => .error "json: cannot unmarshal value into float64 field temperatureAvg"
    else if eqFold k "humidityAvg" then
      match v with
      | .null => decodeValuesFields acc rest
      | .num q => decodeValuesFields { acc with humidityAvg := q } rest
      | _ => .error "json: cannot unmarshal value into float64 field humidityAvg"
    else
      decodeValuesFields acc rest

def decodeDailyFields (acc : Daily) :
    List (String × Json) → Except String Daily
  | [] => .ok acc
  | (k, v) :: rest =>
    if eqFold k "time" then
      match v with
      | .null => decodeDailyFields acc rest
      | .str s => decodeDailyFields { acc with time := s } rest
      | _ => .error "json: cannot unmarshal value into string field time"
    else if eqFold k "values" then
      match v with
      | .null => decodeDailyFields acc rest
      | .obj fs =>
        match decodeValuesFields acc.values fs with
        | .ok vals => decodeDailyFields { acc with values := vals } rest
        | .error e => .error e
      | _ => .error "json: cannot unmarshal value into struct field values"
    else
      decodeDailyFields acc rest

/-- Decode one element of the `daily` array into a zero-valued element. -/
def decodeDailyElem : Json → Except String Daily
  | .null => .ok ⟨"", ⟨0, 0⟩⟩
  | .obj fs => decodeDailyFields ⟨"", ⟨0, 0⟩⟩ fs
  | _ => .error "json: cannot unmarshal value into struct element of daily"

def decodeDailyList : List Json → Except String (List Daily)
  | [] => .ok []
  | j :: rest =>
    match decodeDailyElem j, decodeDailyList rest with
    | .ok d, .ok ds => .ok (d :: ds)
    | .error e, _ => .error e
    | _, .error e => .error e

def decodeTimelinesFields (acc : Timelines) :
    List (String × Json) → Except String Timelines
  | [] => .ok acc
  | (k, v) :: rest =>
    if eqFold k "daily" then
      match v with
      | .null => decodeTimelinesFields acc rest
      | .arr xs =>
        match decodeDailyList xs with
        | .ok ds => decodeTimelinesFields { acc with daily := ds } rest
        | .error e => .error e
      | _ => .error "json: cannot unmarshal value into slice field daily"
    else
      decodeTimelinesFields acc rest

def decodeWeatherFields (acc : Weather) :
    List (String × Json) → Except String Weather
  | [] => .ok acc
  | (k, v) :: rest =>
    if eqFold k "timelines" then
      match v with
      | .null => decodeWeatherFields acc rest
      | .obj fs =>
        match decodeTimelinesFields acc.timelines fs with
        | .ok tl => decodeWeatherFields { acc with timelines := tl } rest
        | .error e => .error e
      | _ => .error "json: cannot unmarshal value into struct field timelines"
    else
      decodeWeatherFields acc rest

/-- `json.Unmarshal` of a parsed JSON value into a fresh `Weather{}`. -/
def unmarshalWeather : Json → Except String Weather
  | .null => .ok emptyWeather
  | .obj fs => decodeWeatherFields emptyWeather fs
  | _ => .error "json: cannot unmarshal value into Go value of type Weather"

/-- `func (w *Weather) Decode(data []byte) error`: `json.Unmarshal` on the
response body.  The receiver is always the zero value `Weather{}` at the
call sites, so the decoded result is returned directly. -/
def Weather.Decode : JsonDoc → Except String Weather
  | .malformed e => .error e
  | .value j => unmarshalWeather j

/-! ### Table projection (`Model.InitTable`) -/

/-- The last two decimal digits of `fmt.Sprintf "%.2f"` output: two digit
characters, zero-padded. -/
def decPad2 (k : ℕ) : String :=
  ⟨[Nat.digitChar (k / 10 % 10), Nat.digitChar (k % 10)]⟩

/-- `fmt.Sprintf "%.2f" x`: sign, integer part without padding, a decimal
point, and exactly two fractional digits (value rounded to the nearest
hundredth; the value is modelled as a rational). -/
def fmtF2 (q : ℚ) : String :=
  let n : ℕ := (round (|q| * 100)).toNat
  (if q < 0 then "-" else "") ++ (n / 100).repr ++ "." ++ decPad2 (n % 100)

/-- One `table.Row` produced by the `InitTable` loop. -/
structure DisplayRow where
  time : String
  temperature : String
  humidity : String
deriving Repr, DecidableEq

/-- The row built for one daily record:
`{day.Time[:10], Sprintf("%.2f°C", ...), Sprintf("%.2f%%", ...)}`.
Go's `day.Time[:10]` panics when the string is shorter than 10 (the
provider's dates are ASCII, so byte indexing is modelled as character
indexing); the panic is modelled by `none`. -/
def rowOfDaily (d : Daily) : Option DisplayRow :=
  if 10 ≤ d.time.length then
    some ⟨d.time.take 10,
          fmtF2 d.values.temperatureAvg ++ "°C",
          fmtF2 d.values.humidityAvg ++ "%"⟩
  else
    none

/-- The `for _, day := range m.w.Timelines.Daily` loop of `InitTable`:
builds one row per daily record; a panic in any iteration aborts the
whole loop (`none`). -/
def tableRowsOf : List Daily → Option (List DisplayRow)
  | [] => some []
  | d :: rest =>
    match rowOfDaily d, tableRowsOf rest with
    | some r, some rs => some (r :: rs)
    | _, _ => none

/-- The rows `Model.InitTable` stores into `m.table` for forecast `w`
(`none` models the `day.Time[:10]` panic). -/
def initTableRows (w : Weather) : Option (List DisplayRow) :=
  tableRowsOf w.timelines.daily

/-! ### The bubbletea model -/

/-- The terminal key events the program reacts to (`tea.KeyMsg`).  `char`
covers printable keys (forwarded to the text input while it captures
input); `other` covers every remaining key type. -/
inductive Key where
  | ctrlC : Key
  | ctrlR : Key
  | ctrlI : Key
  | enter : Key
  | char (c : Char) : Key
  | other : Key
deriving Repr, DecidableEq

/-- A `tea.Msg` delivered to `Model.Update`: either a `WeatherMsg` from a
fetch command or a key event. -/
inductive Msg where
  | weather (wm : WeatherMsg) : Msg
  | key (k : Key) : Msg
deriving Repr, DecidableEq

/-- A `tea.Cmd` returned by `Update`/`Init` (`none` models a nil command;
`load` models the closure returned by `LoadWeather`; `emitKey` models a
command that immediately yields a key message, as `Init` returns). -/
inductive Cmd where
  | none : Cmd
  | quit : Cmd
  | load (city : String) : Cmd
  | emitKey (k : Key) : Cmd
deriving Repr, DecidableEq

/-- The `Model` struct: the controller state.  The external widgets are
modelled by the data the program feeds them: `inputValue`/`inputFocused`
for `textinput.Model`, `tableRows` for `table.Model`, `spinnerView` for
the spinner's current frame. -/
structure AppState where
  inputValue : String
  inputFocused : Bool
  w : Weather
  tableRows : List DisplayRow
  currentCity : String
  updating : Bool
  gettingInput : Bool
  spinnerView : String
deriving Repr, DecidableEq

/-- `Model.InitTable`: recompute `m.table` from `m.w`; `none` models the
slice-bounds panic on a short date string. -/
def Model.InitTable (m : AppState) : Option AppState :=
  (initTableRows m.w).map (fun rows => { m with tableRows := rows })

/-- `textinput.Model.Update` on a key, modelled abstractly: when focused,
a printable key appends to the value subject to `CharLimit = 100`;
every other key leaves the value unchanged. -/
def textInputPush (focused : Bool) (v : String) : Key → String
  | .char c => if focused ∧ v.length < 100 then v.push c else v
  | _ => v

/-- `Model.Update`: the bubbletea event handler.  Returns `none` when the
handler panics (which happens only inside `InitTable` on a short date
string); otherwise the updated model and the returned command. -/
def Model.Update (m : AppState) : Msg → Option (AppState × Cmd)
  | .weather wm =>
    if wm.err.isSome then
      some (m, Cmd.none)
    else
      (Model.InitTable { m with w := wm.w }).map (fun m2 => (m2, Cmd.none))
  | .key k =>
    match k with
    | .ctrlC => some (m, Cmd.quit)
    | .ctrlR => some (m, Cmd.load m.currentCity)
    | .ctrlI => some ({ m with gettingInput := true, inputFocused := true }, Cmd.none)
    | .enter =>
      if m.gettingInput then
        some ({ m with gettingInput := false }, Cmd.load m.inputValue)
      else
        some (m, Cmd.none)
    | k =>
      if m.gettingInput then
        some ({ m with inputValue := textInputPush m.inputFocused m.inputValue k }, Cmd.none)
      else
        some (m, Cmd.none)

/-! ### Rendering (`Model.View`) -/

/-- The static help line appended to every view. -/
def helpLine : String :=
  "\n\n\nPress ctrl+c to quit, ctrl+r to refresh, ctrl+i to change city"

/-- The loading body: `"\n\n   " + m.spinner.View() + " Loading weather data..."`. -/
def loadingBody (m : AppState) : String :=
  "\n\n   " ++ m.spinnerView ++ " Loading weather data..."

/-- The city-prompt body.  `textinput.Model.View` is modelled as the typed
value (the external widget's cursor glyph and empty-value placeholder are
elided). -/
def promptBody (m : AppState) : String :=
  "Enter a city to see weather infor: \n\n" ++ m.inputValue ++ "\n\n" ++ "\n"

/-- `table.Model.View` modelled abstractly: one line per stored row; the
external widget's borders and styling are elided. -/
def renderTable (rows : List DisplayRow) : String :=
  String.intercalate "\n" (rows.map (fun r => r.time ++ " " ++ r.temperature ++ " " ++ r.humidity))

/-- The table body: `"\nShowing weather data for " + m.currentCity + " \n" +
baseStyle.Render(m.table.View())` (the lipgloss border styling is elided). -/
def tableBody (m : AppState) : String :=
  "\nShowing weather data for " ++ m.currentCity ++ " \n" ++ renderTable m.tableRows

/-- `Model.View`: a straight-line translation of the three sequential `if`
statements followed by the `Sprintf` that appends the help line. -/
def Model.View (m : AppState) : String :=
  let view := ""
  let view := if m.updating then loadingBody m else view
  let view := if m.gettingInput then promptBody m else view
  let view := if !m.gettingInput && !m.updating then tableBody m else view
  view ++ helpLine

/-- The three mutually exclusive view modes of the spec's `ViewState`. -/
inductive ViewMode where
  | loading : ViewMode
  | prompting : ViewMode
  | showingTable : ViewMode
deriving Repr, DecidableEq

/-- Which of the three bodies `Model.View` renders for a state: the last
`if` that fires wins, so `gettingInput` takes precedence over `updating`. -/
def viewMode (m : AppState) : ViewMode :=
  if m.gettingInput then .prompting
  else if m.updating then .loading
  else .showingTable

/-- The body `Model.View` renders, per view mode. -/
def viewBodyOf (m : AppState) : String :=
  match viewMode m with
  | .loading => loadingBody m
  | .prompting => promptBody m
  | .showingTable => tableBody m

/-! ### The fetch command (`Model.LoadWeather`)

`LoadWeather(city)` returns a closure that the bubbletea runtime executes
on a background task.  The closure holds the model's mutex for its whole
duration (`m.mu.Lock()` at the top, `defer m.mu.Unlock()`), so no two
closures interleave: a second closure blocks in `Lock()` until the first
returns, i.e. duplicate requests are queued, not dropped.  The deferred
calls run in LIFO order, so the deferred `m.updating = false` (registered
second) runs *before* the deferred `Unlock` (registered first); since
nothing else writes `updating`, every closure that acquires the lock
observes `updating = false` and the `if m.updating` guard is dead code
(proved below as `guard_is_dead_code`).  The event loop's `Update`/`View`
do not take the lock and interleave freely with the closure.  The
closure's critical section is split into the prologue that runs before
the network call and the epilogue that runs after it. -/

/-- The outcome of the network call plus body read inside the closure:
either `FetchWeather` itself fails, or it yields a response body. -/
inductive FetchOutcome where
  | transportError (e : String) : FetchOutcome
  | body (d : JsonDoc) : FetchOutcome
deriving Repr

/-- The rejection message built when the duplicate-fetch guard fires:
`WeatherMsg{Weather{}, fmt.Errorf("Already fetching weather data")}`. -/
def rejectMsg : WeatherMsg := ⟨emptyWeather, some "Already fetching weather data"⟩

/-- The closure's prologue, executed only once `m.mu.Lock()` has been
acquired: `if m.updating { ...; return rejection }; m.updating = true`.
Returns the rejection message when the guard fires, otherwise the state
with the flag set and no message yet.  The guard branch is translated
because it is in the source, but no reachable execution enters the
critical section with `updating = true` (see `guard_is_dead_code`). -/
def loadWeatherBegin (m : AppState) : AppState × Option WeatherMsg :=
  if m.updating then (m, some rejectMsg)
  else ({ m with updating := true }, none)

/-- The closure's epilogue, given the fetch outcome: the transport-error
and decode-error returns leave every other field untouched; the success
path stores the decoded forecast and the city.  The deferred
`m.updating = false` runs on every one of these return paths. -/
def loadWeatherFinish (m : AppState) (city : String) :
    FetchOutcome → AppState × WeatherMsg
  | .transportError e => ({ m with updating := false }, ⟨emptyWeather, some e⟩)
  | .body d =>
    match Weather.Decode d with
    | .error e => ({ m with updating := false }, ⟨emptyWeather, some e⟩)
    | .ok weather =>
      ({ m with w := weather, currentCity := city, updating := false },
       ⟨weather, none⟩)

/-- One complete critical section of the `LoadWeather(city)` closure —
everything between `Lock()` returning and `Unlock()` — with the given
fetch outcome.  `m` is the controller state at the moment the lock is
acquired; in every reachable execution that state has `updating = false`
(see `guard_is_dead_code`), which is why the theorems about fetch runs
carry that hypothesis. -/
def loadWeatherRun (m : AppState) (city : String) (o : FetchOutcome) :
    AppState × WeatherMsg :=
  match loadWeatherBegin m with
  | (m1, some rej) => (m1, rej)
  | (m1, none) => loadWeatherFinish m1 city o

/-! ### The event system

`SysState` couples the controller state with the runtime's bookkeeping:
commands returned to the runtime but not yet executed, and
produced-but-undelivered messages.  `pendingFetch = some city` means a
`LoadWeather(city)` closure has acquired `m.mu` and is inside its
critical section (its network call outstanding): the mutex is held
exactly when `pendingFetch` is `some`, and the `Option` carries at most
one holder because `sync.Mutex` admits at most one. -/

structure SysState where
  app : AppState
  pendingCmds : List Cmd
  pendingFetch : Option String
  inbox : List Msg
deriving Repr

/-- Commands handed to the runtime: a nil command is dropped. -/
def cmdList : Cmd → List Cmd
  | .none => []
  | c => [c]

/-- One step of the system: the event loop delivers a message to `Update`,
the user presses a key, the runtime executes a returned command, or the
background fetch closure finishes.

A `load` command's closure can enter its critical section only when the
mutex is free (`pendingFetch = none`); while another closure holds the
lock the command simply stays pending — that is `m.mu.Lock()` blocking,
so duplicate requests are queued, never dropped.  On entry the closure
runs its guard: `startFetch` is the `updating = false` branch (set the
flag, go fetch) and `startFetchRejected` is the `if m.updating` branch
(return the rejection, leaving `updating` untouched — the deferred reset
is not yet registered on that path).  The latter is dead code: no
reachable state has the lock free and the flag set (`guard_is_dead_code`).
`finishFetch` is the rest of the critical section: the epilogue for the
fetch outcome, the deferred `m.updating = false`, then `Unlock` (the
reset precedes the unlock — deferred calls run in LIFO order — so the
lock is never released with the flag still set; they form one step here
because no other step distinguishes the intermediate instant).
`Update`/`View` never take the lock, so `deliver`/`keyPress`/`runEmit`
interleave freely with an outstanding fetch. -/
inductive Step : SysState → SysState → Prop where
  | deliver (s : SysState) (msg : Msg) (rest : List Msg) (m2 : AppState) (c : Cmd) :
      s.inbox = msg :: rest →
      Model.Update s.app msg = some (m2, c) →
      Step s ⟨m2, s.pendingCmds ++ cmdList c, s.pendingFetch, rest⟩
  | keyPress (s : SysState) (k : Key) :
      Step s ⟨s.app, s.pendingCmds, s.pendingFetch, s.inbox ++ [Msg.key k]⟩
  | runEmit (s : SysState) (k : Key) (rest : List Cmd) :
      s.pendingCmds = Cmd.emitKey k :: rest →
      Step s ⟨s.app, rest, s.pendingFetch, s.inbox ++ [Msg.key k]⟩
  | startFetch (s : SysState) (city : String) (rest : List Cmd) :
      s.pendingCmds = Cmd.load city :: rest →
      s.pendingFetch = none →
      s.app.updating = false →
      Step s ⟨(loadWeatherBegin s.app).1, rest, some city, s.inbox⟩
  | startFetchRejected (s : SysState) (city : String) (rest : List Cmd) :
      s.pendingCmds = Cmd.load city :: rest →
      s.pendingFetch = none →
      s.app.updating = true →
      Step s ⟨s.app, rest, s.pendingFetch, s.inbox ++ [Msg.weather rejectMsg]⟩
  | finishFetch (s : SysState) (city : String) (o : FetchOutcome) :
      s.pendingFetch = some city →
      Step s ⟨(loadWeatherFinish s.app city o).1, s.pendingCmds, Option.none,
              s.inbox ++ [Msg.weather (loadWeatherFinish s.app city o).2]⟩

/-- The spinner-dot frame, abstract (its exact glyph never matters). -/
def spinnerDotView : String := "!spin!"

/-- The controller state when `tea.Program.Run` starts: `main` builds the
zero-valued `Model{}`, evaluates `go m.LoadWeather("uyo")` — which only
constructs the command closure on a new goroutine and discards it without
ever invoking it, mutating nothing — and calls `m.InitTable()` on the
empty forecast (zero rows); `Init` then configures the spinner and the
text input (value empty, not focused). -/
def startApp : AppState :=
  { inputValue := ""
    inputFocused := false
    w := emptyWeather
    tableRows := []
    currentCity := ""
    updating := false
    gettingInput := false
    spinnerView := spinnerDotView }

/-- The system state when the event loop begins: `Init`'s returned command
(which emits a Ctrl+I key message) is pending; the discarded
`LoadWeather("uyo")` closure contributes nothing. -/
def startSys : SysState := ⟨startApp, [Cmd.emitKey Key.ctrlI], none, []⟩

/-- Reachability from the startup state under `Step`. -/
def Reachable (s : SysState) : Prop :=
  Relation.ReflTransGen Step startSys s

/-! ### Helper lemmas -/

/-- `s` contains `sub` as a contiguous substring. -/
def containsStr (s sub : String) : Prop := ∃ a b, s = a ++ sub ++ b

/-- `s` ends in a decimal point followed by exactly two decimal digits and
then the given unit suffix. -/
def twoDecWithSuffix (s suffix : String) : Prop :=
  ∃ a b, s = a ++ "." ++ b ++ suffix ∧ b.length = 2 ∧ b.data.all Char.isDigit = true

theorem digitChar_isDigit : ∀ d : ℕ, d < 10 → (Nat.digitChar d).isDigit = true := by
  decide

theorem decPad2_length (k : ℕ) : (decPad2 k).length = 2 := rfl

theorem decPad2_digits (k : ℕ) : (decPad2 k).data.all Char.isDigit = true := by
  have h1 : (Nat.digitChar (k / 10 % 10)).isDigit = true :=
    digitChar_isDigit _ (Nat.mod_lt _ (by norm_num))
  have h2 : (Nat.digitChar (k % 10)).isDigit = true :=
    digitChar_isDigit _ (Nat.mod_lt _ (by norm_num))
  simp [decPad2, h1, h2]

/-- Every `fmt.Sprintf "%.2f"` output followed by a unit suffix has exactly
two decimal places before the suffix. -/
theorem fmtF2_twoDec (q : ℚ) (suffix : String) :
    twoDecWithSuffix (fmtF2 q ++ suffix) suffix := by
  refine ⟨(if q < 0 then "-" else "") ++ ((round (|q| * 100)).toNat / 100).repr,
          decPad2 ((round (|q| * 100)).toNat % 100), ?_, decPad2_length _, decPad2_digits _⟩
  rfl

/-- The `InitTable` loop on records with dates of length at least 10:
one row per record, each with two-decimal temperature and humidity. -/
theorem tableRowsOf_total : ∀ l : List Daily, (∀ d ∈ l, 10 ≤ d.time.length) →
    ∃ rs, tableRowsOf l = some rs ∧ rs.length = l.length ∧
      ∀ r ∈ rs, twoDecWithSuffix r.temperature "°C" ∧ twoDecWithSuffix r.humidity "%" := by
  intro l
  induction l with
  | nil => exact fun _ => ⟨[], rfl, rfl, by simp⟩
  | cons d rest ih =>
    intro h
    obtain ⟨rs, hrs, hlen, hall⟩ := ih (fun d' hd' => h d' (List.mem_cons_of_mem _ hd'))
    have hd : 10 ≤ d.time.length := h d (List.mem_cons_self _ _)
    refine ⟨⟨d.time.take 10, fmtF2 d.values.temperatureAvg ++ "°C",
             fmtF2 d.values.humidityAvg ++ "%"⟩ :: rs, ?_, by simp [hlen], ?_⟩
    · simp [tableRowsOf, rowOfDaily, hd, hrs]
    · intro r hr
      rcases List.mem_cons.1 hr with h1 | h2
      · subst h1
        exact ⟨fmtF2_twoDec _ _, fmtF2_twoDec _ _⟩
      · exact hall r h2

/-- `Model.Update` never changes the `updating` flag (only the `LoadWeather`
closure writes it). -/
theorem update_preserves_updating (m : AppState) (msg : Msg) (m2 : AppState) (c : Cmd)
    (h : Model.Update m msg = some (m2, c)) : m2.updating = m.updating := by
  cases msg with
  | weather wm =>
    by_cases he : wm.err.isSome
    · simp [Model.Update, he] at h
      rw [← h.1]
    · simp [Model.Update, he, Model.InitTable] at h
      cases hit : initTableRows wm.w with
      | none => rw [hit] at h; simp at h
      | some rows => rw [hit] at h; simp at h; rw [← h.1]
  | key k =>
    cases k with
    | ctrlC => simp [Model.Update] at h; rw [← h.1]
    | ctrlR => simp [Model.Update] at h; rw [← h.1]
    | ctrlI => simp [Model.Update] at h; rw [← h.1]
    | enter =>
      by_cases hg : m.gettingInput
      · simp [Model.Update, hg] at h; rw [← h.1]
      · simp [Model.Update, hg] at h; rw [← h.1]
    | char ch =>
      by_cases hg : m.gettingInput
      · simp [Model.Update, hg] at h; rw [← h.1]
      · simp [Model.Update, hg] at h; rw [← h.1]
    | other =>
      by_cases hg : m.gettingInput
      · simp [Model.Update, hg] at h; rw [← h.1]
      · simp [Model.Update, hg] at h; rw [← h.1]

/-- The closure's epilogue always leaves `updating = false`: the deferred
reset runs on the success, transport-error and decode-error returns
alike. -/
theorem loadWeatherFinish_clears (m : AppState) (city : String) :
    ∀ o : FetchOutcome, (loadWeatherFinish m city o).1.updating = false := by
  intro o
  cases o with
  | transportError e => rfl
  | body d =>
    cases hd : Weather.Decode d with
    | error e => simp [loadWeatherFinish, hd]
    | ok w => simp [loadWeatherFinish, hd]

/-- Lock/flag agreement: in every reachable system state, `updating` is
set exactly while a `LoadWeather` closure holds the mutex (its fetch is
outstanding).  Both directions are inductive: `Update` never writes the
flag, the closure sets it on entry, and the deferred reset clears it
before the lock is released. -/
theorem reachable_lock_flag_agree :
    ∀ s : SysState, Reachable s →
      (s.app.updating = true ↔ s.pendingFetch.isSome = true) := by
  intro s h
  induction h with
  | refl => simp [startSys, startApp]
  | tail _ hstep ih =>
    cases hstep with
    | deliver msg rest m2 cm hin hup =>
      rw [show (⟨m2, _, _, rest⟩ : SysState).app = m2 from rfl,
          update_preserves_updating _ msg m2 cm hup]
      exact ih
    | keyPress k => exact ih
    | runEmit k rest hpc => exact ih
    | startFetch city rest hpc hlk hu =>
      simp [loadWeatherBegin, hu]
    | startFetchRejected city rest hpc hlk hu =>
      rw [hlk] at ih
      simp [hu] at ih
    | finishFetch city o hp =>
      simp [loadWeatherFinish_clears]

/-- The `if m.updating` guard inside `LoadWeather` is dead code: every
closure that acquires the mutex (which requires it to be free) observes
`updating = false`, because the deferred reset runs before the deferred
`Unlock`.  Hence the `startFetchRejected` branch is enabled in no
reachable state and the rejection message is never produced. -/
theorem guard_is_dead_code :
    ∀ s : SysState, Reachable s → s.pendingFetch = none →
      s.app.updating = false := by
  intro s h hlk
  cases hu : s.app.updating with
  | false => rfl
  | true =>
    have := (reachable_lock_flag_agree s h).mp hu
    rw [hlk] at this
    simp at this

/-! ### A concrete execution trace

Startup, then: the pending `Init` command emits Ctrl+I; it is delivered
(the prompt opens); the user presses Enter (a fetch command for the typed
city is returned); the runtime starts the fetch; the user presses Ctrl+I
again while the fetch is still outstanding. -/

def trState1 : SysState := ⟨startApp, [], none, [Msg.key Key.ctrlI]⟩

def appPrompt : AppState := { startApp with gettingInput := true, inputFocused := true }

def trState2 : SysState := ⟨appPrompt, [], none, []⟩

def trState3 : SysState := ⟨appPrompt, [], none, [Msg.key Key.enter]⟩

def appAfterEnter : AppState := { appPrompt with gettingInput := false }

def trState4 : SysState := ⟨appAfterEnter, [Cmd.load ""], none, []⟩

def appFetching : AppState := { appAfterEnter with updating := true }

def trState5 : SysState := ⟨appFetching, [], some "", []⟩

def trState6 : SysState := ⟨appFetching, [], some "", [Msg.key Key.ctrlI]⟩

def appFetchPrompt : AppState := { appFetching with gettingInput := true }

def trState7 : SysState := ⟨appFetchPrompt, [], some "", []⟩

theorem reach_trState2 : Reachable trState2 :=
  Relation.ReflTransGen.head
    (show Step startSys trState1 from Step.runEmit startSys Key.ctrlI [] rfl)
    (Relation.ReflTransGen.head
      (show Step trState1 trState2 from
        Step.deliver trState1 (Msg.key Key.ctrlI) [] appPrompt Cmd.none rfl rfl)
      Relation.ReflTransGen.refl)

theorem reach_trState5 : Reachable trState5 :=
  Relation.ReflTransGen.trans reach_trState2
    (Relation.ReflTransGen.head
      (show Step trState2 trState3 from Step.keyPress trState2 Key.enter)
      (Relation.ReflTransGen.head
        (show Step trState3 trState4 from
          Step.deliver trState3 (Msg.key Key.enter) [] appAfterEnter (Cmd.load "") rfl rfl)
        (Relation.ReflTransGen.head
          (show Step trState4 trState5 from Step.startFetch trState4 "" [] rfl rfl rfl)
          Relation.ReflTransGen.refl)))

theorem reach_trState7 : Reachable trState7 :=
  Relation.ReflTransGen.trans reach_trState5
    (Relation.ReflTransGen.head
      (show Step trState5 trState6 from Step.keyPress trState5 Key.ctrlI)
      (Relation.ReflTransGen.head
        (show Step trState6 trState7 from
          Step.deliver trState6 (Msg.key Key.ctrlI) [] appFetchPrompt Cmd.none rfl rfl)
        Relation.ReflTransGen.refl))

/-- `Model.View` renders exactly the body selected by `viewMode`, followed
by the help line. -/
theorem view_eq_body (m : AppState) : Model.View m = viewBodyOf m ++ helpLine := by
  cases hg : m.gettingInput <;> cases hu : m.updating <;>
    simp [Model.View, viewBodyOf, viewMode, hg, hu]

/-! ### Claim theorems -/

/-! ### A duplicate-request trace

Extending the trace at `trState5` (a fetch for the typed city outstanding,
mutex held): the user presses Ctrl+R, delivering a second fetch command
while the first is still in flight.  The duplicate cannot enter its
critical section while the lock is held — it stays pending (`Lock()`
blocks).  Once the first closure finishes, the queued duplicate acquires
the lock, sees `updating = false` (the deferred reset ran before the
unlock), and runs a full fetch of its own, overwriting the forecast. -/

/-- One decoded daily record, as produced by a well-formed response. -/
def wOne : Weather := ⟨⟨[⟨"2024-01-01T00:00:00Z", ⟨20, 50⟩⟩]⟩⟩

/-- The `timelines` object of a well-formed response body for `wOne`. -/
def jTimelinesVal : Json :=
  Json.obj [("daily", Json.arr
    [Json.obj [("time", Json.str "2024-01-01T00:00:00Z"),
               ("values", Json.obj [("temperatureAvg", Json.num 20),
                                    ("humidityAvg", Json.num 50)])]])]

/-- A well-formed response body for `wOne`. -/
def jOne : Json := Json.obj [("timelines", jTimelinesVal)]

def trDup1 : SysState := ⟨appFetching, [], some "", [Msg.key Key.ctrlR]⟩

def trDup2 : SysState := ⟨appFetching, [Cmd.load ""], some "", []⟩

def trDup3 : SysState :=
  ⟨appAfterEnter, [Cmd.load ""], none, [Msg.weather ⟨emptyWeather, none⟩]⟩

def trDup4 : SysState := ⟨appFetching, [], some "", [Msg.weather ⟨emptyWeather, none⟩]⟩

def appDupDone : AppState := { appFetching with w := wOne, updating := false }

def trDup5 : SysState :=
  ⟨appDupDone, [], none,
   [Msg.weather ⟨emptyWeather, none⟩, Msg.weather ⟨wOne, none⟩]⟩

theorem reach_trDup2 : Reachable trDup2 :=
  Relation.ReflTransGen.trans reach_trState5
    (Relation.ReflTransGen.head
      (show Step trState5 trDup1 from Step.keyPress trState5 Key.ctrlR)
      (Relation.ReflTransGen.head
        (show Step trDup1 trDup2 from
          Step.deliver trDup1 (Msg.key Key.ctrlR) [] appFetching (Cmd.load "") rfl rfl)
        Relation.ReflTransGen.refl))

theorem reach_trDup5 : Reachable trDup5 :=
  Relation.ReflTransGen.trans reach_trDup2
    (Relation.ReflTransGen.head
      (show Step trDup2 trDup3 from
        Step.finishFetch trDup2 "" (FetchOutcome.body (JsonDoc.value Json.null)) rfl)
      (Relation.ReflTransGen.head
        (show Step trDup3 trDup4 from Step.startFetch trDup3 "" [] rfl rfl rfl)
        (Relation.ReflTransGen.head
          (show Step trDup4 trDup5 from
            Step.finishFetch trDup4 "" (FetchOutcome.body (JsonDoc.value jOne)) rfl)
          Relation.ReflTransGen.refl)))

/-- Claim C1: the code violates the claim.  A second fetch request issued
while a fetch is in flight is queued, not rejected: the state `trDup2` is
reachable with the flag set, a fetch outstanding and the duplicate
command pending; the duplicate later runs and overwrites the stored
forecast (`trDup5`), and no rejection is ever produced — the
`if m.updating` guard never fires in a reachable state, because the
deferred `updating = false` runs before the deferred `Unlock`
(`guard_is_dead_code`). -/
theorem duplicate_fetch_queued_not_rejected :
    Reachable trDup2
    ∧ trDup2.app.updating = true
    ∧ trDup2.pendingFetch = some ""
    ∧ trDup2.pendingCmds = [Cmd.load ""]
    ∧ Reachable trDup5
    ∧ trDup5.app.w = wOne
    ∧ trDup2.app.w ≠ wOne
    ∧ trDup5.app.updating = false
    ∧ Msg.weather rejectMsg ∉ trDup5.inbox :=
  ⟨reach_trDup2, rfl, rfl, rfl, reach_trDup5, rfl, by decide, rfl, by decide⟩

/-- Whether the fetch outcome ends the `LoadWeather` closure in one of its
two error returns (transport error or decode error). -/
def fetchFailed : FetchOutcome → Bool
  | .transportError _ => true
  | .body d =>
    match Weather.Decode d with
    | .error _ => true
    | .ok _ => false

/-- Claim C2: a fetch that ends in a transport or decode error leaves the stored
forecast, the rendered table rows and `currentCity` unchanged, clears
`updating`, and produces an error message whose delivery to `Update`
changes nothing and does not crash. -/
theorem fetch_error_preserves_view (m : AppState) (city : String) (o : FetchOutcome)
    (h0 : m.updating = false) (he : fetchFailed o = true) :
    (loadWeatherRun m city o).1.w = m.w
    ∧ (loadWeatherRun m city o).1.tableRows = m.tableRows
    ∧ (loadWeatherRun m city o).1.currentCity = m.currentCity
    ∧ (loadWeatherRun m city o).1.updating = false
    ∧ (loadWeatherRun m city o).2.err.isSome = true
    ∧ Model.Update (loadWeatherRun m city o).1 (Msg.weather (loadWeatherRun m city o).2)
        = some ((loadWeatherRun m city o).1, Cmd.none) := by
  cases o with
  | transportError e =>
    simp [loadWeatherRun, loadWeatherBegin, h0, loadWeatherFinish, Model.Update]
  | body d =>
    cases hd : Weather.Decode d with
    | error e =>
      simp [loadWeatherRun, loadWeatherBegin, h0, loadWeatherFinish, hd, Model.Update]
    | ok w =>
      simp [fetchFailed, hd] at he

/-- Claim C2 witness: a transport error on a fetch from the startup state. -/
theorem fetch_error_preserves_view_witness :
    (loadWeatherRun startApp "uyo" (FetchOutcome.transportError "dial tcp: lookup failed")).1.w
        = startApp.w
    ∧ (loadWeatherRun startApp "uyo" (FetchOutcome.transportError "dial tcp: lookup failed")).1.tableRows
        = startApp.tableRows
    ∧ (loadWeatherRun startApp "uyo" (FetchOutcome.transportError "dial tcp: lookup failed")).1.currentCity
        = startApp.currentCity
    ∧ (loadWeatherRun startApp "uyo" (FetchOutcome.transportError "dial tcp: lookup failed")).1.updating
        = false
    ∧ (loadWeatherRun startApp "uyo" (FetchOutcome.transportError "dial tcp: lookup failed")).2.err.isSome
        = true
    ∧ Model.Update (loadWeatherRun startApp "uyo" (FetchOutcome.transportError "dial tcp: lookup failed")).1
          (Msg.weather (loadWeatherRun startApp "uyo" (FetchOutcome.transportError "dial tcp: lookup failed")).2)
        = some ((loadWeatherRun startApp "uyo" (FetchOutcome.transportError "dial tcp: lookup failed")).1, Cmd.none) :=
  fetch_error_preserves_view startApp "uyo" (FetchOutcome.transportError "dial tcp: lookup failed") rfl rfl

/-- Claim C3: a forecast whose N daily records all carry dates of length at
least 10 projects to exactly N display rows, each formatting temperature
and humidity with exactly two decimal places followed by the unit suffix
(`°C` / `%`). -/
theorem initTable_row_shape (w : Weather)
    (h : ∀ d ∈ w.timelines.daily, 10 ≤ d.time.length) :
    ∃ rows, initTableRows w = some rows
      ∧ rows.length = w.timelines.daily.length
      ∧ ∀ r ∈ rows, twoDecWithSuffix r.temperature "°C" ∧ twoDecWithSuffix r.humidity "%" :=
  tableRowsOf_total w.timelines.daily h

/-- A well-formed two-record forecast used as concrete input. -/
def wGood : Weather :=
  ⟨⟨[⟨"2024-01-01T00:00:00Z", ⟨23, 55⟩⟩, ⟨"2024-01-02T00:00:00Z", ⟨24, 60⟩⟩]⟩⟩

/-- Claim C3 witness: the two-record forecast `wGood` projects to two rows of
the stated shape. -/
theorem initTable_row_shape_witness :
    ∃ rows, initTableRows wGood = some rows
      ∧ rows.length = wGood.timelines.daily.length
      ∧ ∀ r ∈ rows, twoDecWithSuffix r.temperature "°C" ∧ twoDecWithSuffix r.humidity "%" :=
  initTable_row_shape wGood (by decide)

/-- A forecast whose single record carries a 4-character date string. -/
def wShortDate : Weather := ⟨⟨[⟨"2024", ⟨20, 50⟩⟩]⟩⟩

/-- Claim C4: the code violates the claim — projecting a forecast whose date
string is shorter than 10 characters panics (`day.Time[:10]` is out of
bounds, modelled by `none`), both in the projection itself and when the
event handler receives such a forecast. -/
theorem shortDate_projection_panics :
    initTableRows wShortDate = none
    ∧ Model.Update startApp (Msg.weather ⟨wShortDate, none⟩) = none :=
  ⟨rfl, rfl⟩

/-- Claim C8: executing a fetch command while `updating` is false sets the flag
before anything else: the closure's prologue yields a state with
`updating = true` and no result message yet, and the complete run factors
through that state, so the flag is observably true before the
`WeatherMsg` result exists. -/
theorem loadWeather_sets_flag_first (m : AppState) (city : String)
    (h : m.updating = false) :
    (loadWeatherBegin m).1.updating = true
    ∧ (loadWeatherBegin m).2 = none
    ∧ ∀ o : FetchOutcome,
        loadWeatherRun m city o = loadWeatherFinish (loadWeatherBegin m).1 city o := by
  refine ⟨by simp [loadWeatherBegin, h], by simp [loadWeatherBegin, h], fun o => ?_⟩
  simp [loadWeatherRun, loadWeatherBegin, h]

/-- Claim C8 witness: starting a fetch for "uyo" from the startup state. -/
theorem loadWeather_sets_flag_first_witness :
    (loadWeatherBegin startApp).1.updating = true
    ∧ (loadWeatherBegin startApp).2 = none
    ∧ ∀ o : FetchOutcome,
        loadWeatherRun startApp "uyo" o
          = loadWeatherFinish (loadWeatherBegin startApp).1 "uyo" o :=
  loadWeather_sets_flag_first startApp "uyo" rfl

/-- Claim C10: every exit path of an admitted fetch — success, transport error
and decode error alike — leaves `updating` false in the resulting state,
so the flag is clear by the time the command's `WeatherMsg` is returned. -/
theorem updating_cleared_on_every_path (m : AppState) (city : String) (o : FetchOutcome)
    (h : m.updating = false) :
    (loadWeatherRun m city o).1.updating = false
    ∧ ∀ m2 : AppState, (loadWeatherFinish m2 city o).1.updating = false := by
  constructor
  · cases o with
    | transportError e => simp [loadWeatherRun, loadWeatherBegin, h, loadWeatherFinish]
    | body d =>
      cases hd : Weather.Decode d with
      | error e => simp [loadWeatherRun, loadWeatherBegin, h, loadWeatherFinish, hd]
      | ok w => simp [loadWeatherRun, loadWeatherBegin, h, loadWeatherFinish, hd]
  · intro m2
    cases o with
    | transportError e => simp [loadWeatherFinish]
    | body d =>
      cases hd : Weather.Decode d with
      | error e => simp [loadWeatherFinish, hd]
      | ok w => simp [loadWeatherFinish, hd]

/-- Claim C10 witness: the flag is cleared on a success, a transport error and a
decode error, each run from the startup state. -/
theorem updating_cleared_on_every_path_witness :
    (loadWeatherRun startApp "uyo" (FetchOutcome.body (JsonDoc.value Json.null))).1.updating = false
    ∧ (loadWeatherRun startApp "uyo" (FetchOutcome.transportError "connection refused")).1.updating = false
    ∧ (loadWeatherRun startApp "uyo" (FetchOutcome.body (JsonDoc.malformed "unexpected end of JSON input"))).1.updating = false :=
  ⟨(updating_cleared_on_every_path startApp "uyo" (FetchOutcome.body (JsonDoc.value Json.null)) rfl).1,
   (updating_cleared_on_every_path startApp "uyo" (FetchOutcome.transportError "connection refused") rfl).1,
   (updating_cleared_on_every_path startApp "uyo" (FetchOutcome.body (JsonDoc.malformed "unexpected end of JSON input")) rfl).1⟩

/-- Claim C7: rendering appends the help line in every state and shows
exactly the one body selected by the view mode; the Loading view contains
the spinner (progress indicator) and the loading text, the table view
contains the current city name, and the prompt view echoes the input
buffer. -/
theorem view_contract (m : AppState) :
    Model.View m = viewBodyOf m ++ helpLine
    ∧ (viewMode m = ViewMode.loading →
        containsStr (Model.View m) m.spinnerView
        ∧ containsStr (Model.View m) "Loading weather data...")
    ∧ (viewMode m = ViewMode.showingTable → containsStr (Model.View m) m.currentCity)
    ∧ (viewMode m = ViewMode.prompting → containsStr (Model.View m) m.inputValue) := by
  refine ⟨view_eq_body m, fun h => ⟨?_, ?_⟩, fun h => ?_, fun h => ?_⟩
  · rw [view_eq_body m]
    refine ⟨"\n\n   ", " Loading weather data..." ++ helpLine, ?_⟩
    simp [viewBodyOf, h, loadingBody, String.append_assoc]
  · rw [view_eq_body m]
    refine ⟨"\n\n   " ++ m.spinnerView ++ " ", helpLine, ?_⟩
    have hlit : (" Loading weather data..." : String) = " " ++ "Loading weather data..." := rfl
    simp [viewBodyOf, h, loadingBody, hlit, String.append_assoc]
  · rw [view_eq_body m]
    refine ⟨"\nShowing weather data for ",
            " \n" ++ renderTable m.tableRows ++ helpLine, ?_⟩
    simp [viewBodyOf, h, tableBody, String.append_assoc]
  · rw [view_eq_body m]
    refine ⟨"Enter a city to see weather infor: \n\n",
            "\n\n" ++ "\n" ++ helpLine, ?_⟩
    simp [viewBodyOf, h, promptBody, String.append_assoc]

/-- Claim C7 witness: the three view bodies at concrete states — loading
while a fetch is outstanding, the table at startup, and the prompt while
capturing input. -/
theorem view_contract_witness :
    (containsStr (Model.View appFetching) appFetching.spinnerView
      ∧ containsStr (Model.View appFetching) "Loading weather data...")
    ∧ containsStr (Model.View startApp) startApp.currentCity
    ∧ containsStr (Model.View appPrompt) appPrompt.inputValue :=
  ⟨(view_contract appFetching).2.1 rfl,
   (view_contract startApp).2.2.1 rfl,
   (view_contract appPrompt).2.2.2 rfl⟩

/-- Claim C5 counterexample: the state reached by pressing Ctrl+I while a
fetch is outstanding is reachable, has `updating = true`, and yet the
rendered view is the city prompt, not the Loading view — the claimed
iff between `updating` and the Loading view fails. -/
theorem updating_loading_disagree :
    Reachable trState7
    ∧ trState7.app.updating = true
    ∧ viewMode trState7.app ≠ ViewMode.loading
    ∧ Model.View trState7.app = promptBody trState7.app ++ helpLine :=
  ⟨reach_trState7, rfl, by decide, rfl⟩

/-- Claim C5 (amended): exactly one of the three view bodies is rendered
in every state; in every reachable state with `gettingInput = false` the
`updating` flag and the Loading view agree; when `gettingInput = true`
the prompt takes precedence regardless of `updating`. -/
theorem viewMode_flag_agreement :
    ∀ s : SysState, Reachable s →
      Model.View s.app = viewBodyOf s.app ++ helpLine
      ∧ (s.app.gettingInput = false →
          (s.app.updating = true ↔ viewMode s.app = ViewMode.loading))
      ∧ (s.app.gettingInput = true → viewMode s.app = ViewMode.prompting) := by
  intro s _
  refine ⟨view_eq_body s.app, fun hg => ?_, fun hg => ?_⟩
  · cases hu : s.app.updating <;> simp [viewMode, hg, hu]
  · simp [viewMode, hg]

/-- Claim C5 witness: the agreement at the startup state and the prompt
precedence at the reachable prompting state. -/
theorem viewMode_flag_agreement_witness :
    (startSys.app.updating = true ↔ viewMode startSys.app = ViewMode.loading)
    ∧ viewMode trState2.app = ViewMode.prompting :=
  ⟨(viewMode_flag_agreement startSys Relation.ReflTransGen.refl).2.1 rfl,
   (viewMode_flag_agreement trState2 reach_trState2).2.2 rfl⟩

/-- Claim C6 counterexample: at startup no fetch is outstanding and none
is pending — `go m.LoadWeather("uyo")` discards the command closure it
builds without running it — `updating` is false, and the view mode is not
Loading; the claimed startup fetch for "uyo" and Loading start state do
not exist. -/
theorem no_startup_fetch :
    startSys.pendingFetch = none
    ∧ startSys.app.updating = false
    ∧ Cmd.load "uyo" ∉ startSys.pendingCmds
    ∧ viewMode startSys.app ≠ ViewMode.loading :=
  ⟨rfl, rfl, by decide, by decide⟩

/-- Claim C6 (amended): at startup the only pending command is the Ctrl+I
key emission from `Init` (no fetch is issued: the `go` statement discards
the `LoadWeather("uyo")` closure unrun), `updating` is false and the city
is empty; the controller reaches the prompting state; and whenever a fetch
for "uyo" does run from a non-updating state and decodes successfully, the
state afterwards stores the forecast with `currentCity = "uyo"` and the
flag cleared. -/
theorem startup_behavior :
    startSys.pendingCmds = [Cmd.emitKey Key.ctrlI]
    ∧ startSys.pendingFetch = none
    ∧ startSys.app.updating = false
    ∧ startSys.app.currentCity = ""
    ∧ Reachable trState2
    ∧ trState2.app.gettingInput = true
    ∧ (∀ (m : AppState) (d : JsonDoc) (w : Weather), m.updating = false →
        Weather.Decode d = Except.ok w →
        loadWeatherRun m "uyo" (FetchOutcome.body d)
          = ({ m with w := w, currentCity := "uyo", updating := false },
             ⟨w, none⟩)) := by
  refine ⟨rfl, rfl, rfl, rfl, reach_trState2, rfl, ?_⟩
  intro m d w h0 hd
  simp [loadWeatherRun, loadWeatherBegin, h0, loadWeatherFinish, hd]

/-- Claim C6 witness: a successful fetch for "uyo" from the startup
controller state stores the decoded forecast and the city. -/
theorem startup_behavior_witness :
    loadWeatherRun startApp "uyo" (FetchOutcome.body (JsonDoc.value Json.null))
      = ({ startApp with w := emptyWeather, currentCity := "uyo", updating := false },
         ⟨emptyWeather, none⟩) :=
  startup_behavior.2.2.2.2.2.2 startApp (JsonDoc.value Json.null) emptyWeather rfl rfl

/-- Claim C9 counterexample: a syntactically valid JSON input whose top
level is an array is rejected by `Decode` with an unmarshal type error —
decoding does not succeed on every syntactically valid JSON input. -/
theorem decode_fails_on_json_array :
    Weather.Decode (JsonDoc.value (Json.arr []))
      = Except.error "json: cannot unmarshal value into Go value of type Weather" := rfl

/-- Objects none of whose keys case-insensitively matches `timelines`
decode to the untouched accumulator: every unknown field is skipped. -/
theorem decodeWeatherFields_skips (acc : Weather) :
    ∀ fs : List (String × Json), (∀ p ∈ fs, eqFold p.1 "timelines" = false) →
      decodeWeatherFields acc fs = Except.ok acc := by
  intro fs
  induction fs with
  | nil => intro _; rfl
  | cons p rest ih =>
    intro h
    obtain ⟨k, v⟩ := p
    have hk : eqFold k "timelines" = false := h (k, v) (List.mem_cons_self _ _)
    simp only [decodeWeatherFields, hk, Bool.false_eq_true, if_false]
    exact ih fun p hp => h p (List.mem_cons_of_mem _ hp)

/-- Claim C9 (amended): `Decode` succeeds on any JSON object none of
whose keys case-insensitively matches the `timelines` field — in
particular on `{}` and on JSON-formatted provider error pages — yielding
the empty forecast with zero daily records, whose projection has zero
rows.  But not on every syntactically valid JSON input: a top-level array
still fails (see the counterexample), and keys that fold to `timelines`
do bind the field: `{"TIMELINES": 5}` is a type error and
`{"Timelines": {...}}` decodes to a non-empty forecast. -/
theorem schema_mismatch_decode :
    (∀ fs : List (String × Json), (∀ p ∈ fs, eqFold p.1 "timelines" = false) →
        Weather.Decode (JsonDoc.value (Json.obj fs)) = Except.ok emptyWeather)
    ∧ Weather.Decode (JsonDoc.value (Json.obj [])) = Except.ok emptyWeather
    ∧ initTableRows emptyWeather = some []
    ∧ Weather.Decode (JsonDoc.value (Json.obj [("TIMELINES", Json.num 5)]))
        = Except.error "json: cannot unmarshal value into struct field timelines"
    ∧ Weather.Decode (JsonDoc.value (Json.obj [("Timelines", jTimelinesVal)]))
        = Except.ok wOne :=
  ⟨fun fs h => decodeWeatherFields_skips emptyWeather fs h, rfl, rfl, rfl, rfl⟩

/-- Claim C9 witness: a provider error page (whose keys do not fold to
`timelines`) decodes to the empty forecast. -/
theorem schema_mismatch_decode_witness :
    Weather.Decode (JsonDoc.value (Json.obj
        [("code", Json.num 429), ("type", Json.str "Too Many Calls")]))
      = Except.ok emptyWeather :=
  schema_mismatch_decode.1
    [("code", Json.num 429), ("type", Json.str "Too Many Calls")] (by decide)
